import Mathlib

/-
Verification development for the GausControl speed-monitoring pipeline.

Shallow embedding of the core JavaScript modules:
  * src/src/services/speedProcessor.js   (SpeedProcessor)
  * src/src/validators/simpleSpeedValidator.js (SimpleSpeedValidator)
  * alertSystem.js                        (AlertSystem and its strategies)
  * mqttSpeedProcessor.js                 (MqttSpeedProcessor)

JavaScript numbers are modelled as rationals (exact arithmetic); epoch-millisecond
timestamps as naturals.  Fields whose values are produced by impure primitives
(Date.now-based ids, detectedAt stamps) are either omitted or passed explicitly
as a `now` parameter, as noted at each definition.
-/

namespace GausControl

/-- One normalized speed telemetry sample, the shape produced by
MqttSpeedProcessor.parseSpeedMessage / SimpleSpeedValidator normalization:
vehicle id, speed (km/h), sample timestamp (epoch ms), optional lat/lng pair,
vehicle-type tag.  The free-form `metadata` map and `receivedAt` stamp play no
role in any verified property and are not carried. -/
structure SpeedData where
  vehicleId : String
  speed : ℚ
  timestamp : Nat
  location : Option (ℚ × ℚ) := none
  vehicleType : String := "unknown"
deriving Repr, DecidableEq

/-- Per-vehicle mutable record kept in SpeedProcessor.vehicleStates
(speedProcessor.js lines 145-154 give the creation default). -/
structure VehicleState where
  vehicleId : String
  lastSeen : Option Nat
  consecutiveViolations : Nat
  totalViolations : Nat
  averageSpeed : ℚ
  maxSpeed : ℚ
  recordCount : Nat
  speedHistory : List (ℚ × Nat)
deriving Repr, DecidableEq

/-- The default object used when a vehicle id has no entry yet
(speedProcessor.js lines 145-154; `lastSeen: null`). -/
def freshVehicleState (vehicleId : String) : VehicleState :=
  { vehicleId := vehicleId
    lastSeen := none
    consecutiveViolations := 0
    totalViolations := 0
    averageSpeed := 0
    maxSpeed := 0
    recordCount := 0
    speedHistory := [] }

/-- SpeedProcessor.updateVehicleState, body after the lookup-or-create
(speedProcessor.js lines 156-186): bump lastSeen / recordCount / maxSpeed,
incremental mean (the JS reads the already-incremented recordCount and
subtracts 1), push into the history and shift once its length exceeds 10,
then the consecutive / lifetime violation counters. -/
def updateVehicleState (speedLimit : ℚ) (st : VehicleState) (d : SpeedData) : VehicleState :=
  let recordCount := st.recordCount + 1
  let maxSpeed := max st.maxSpeed d.speed
  let totalSpeed := st.averageSpeed * ((recordCount : ℚ) - 1) + d.speed
  let averageSpeed := totalSpeed / (recordCount : ℚ)
  let pushed := st.speedHistory ++ [(d.speed, d.timestamp)]
  let speedHistory := if pushed.length > 10 then pushed.tail else pushed
  if speedLimit < d.speed then
    { st with lastSeen := some d.timestamp
              recordCount := recordCount
              maxSpeed := maxSpeed
              averageSpeed := averageSpeed
              speedHistory := speedHistory
              consecutiveViolations := st.consecutiveViolations + 1
              totalViolations := st.totalViolations + 1 }
  else
    { st with lastSeen := some d.timestamp
              recordCount := recordCount
              maxSpeed := maxSpeed
              averageSpeed := averageSpeed
              speedHistory := speedHistory
              consecutiveViolations := 0 }

/-- JavaScript `parseFloat(x.toFixed(2))`: round to two decimal places
(round half up, exact on the rationals in scope here). -/
def round2 (q : ℚ) : ℚ := (round (q * 100) : ℤ) / 100

/-- Ephemeral violation record built by SpeedProcessor.checkSpeedViolation
(speedProcessor.js lines 220-234).  The Date.now-based `id` string and the
`detectedAt` wall-clock stamp are impure and carried by no verified property,
so they are omitted here. -/
structure Violation where
  vehicleId : String
  speed : ℚ
  speedLimit : ℚ
  exceedAmount : ℚ
  exceedPercentage : ℚ
  severity : String
  isConsecutive : Bool
  consecutiveCount : Nat
  timestamp : Nat
  location : Option (ℚ × ℚ)
  vehicleType : String
deriving Repr, DecidableEq

/-- The severity ladder of speedProcessor.js lines 206-215, applied to the
unrounded exceed percentage. -/
def severityFor (exceedPercentage : ℚ) : String :=
  if exceedPercentage > 50 then "CRITICAL"
  else if exceedPercentage > 25 then "HIGH"
  else if exceedPercentage > 10 then "MEDIUM"
  else "LOW"

/-- SpeedProcessor.checkSpeedViolation (speedProcessor.js lines 195-235), as a
pure function of the configured limit, the consecutive threshold, the reading
and the (already updated) vehicle-state snapshot.  The `this.violationCount++`
side effect is accounted for in `processSpeedData` below. -/
def checkSpeedViolation (speedLimit : ℚ) (consecutiveLimit : Nat)
    (d : SpeedData) (vehicleState : VehicleState) : Option Violation :=
  if d.speed ≤ speedLimit then none
  else
    let exceedAmount := d.speed - speedLimit
    let exceedPercentage := exceedAmount / speedLimit * 100
    some { vehicleId := d.vehicleId
           speed := d.speed
           speedLimit := speedLimit
           exceedAmount := exceedAmount
           exceedPercentage := round2 exceedPercentage
           severity := severityFor exceedPercentage
           isConsecutive := vehicleState.consecutiveViolations ≥ consecutiveLimit
           consecutiveCount := vehicleState.consecutiveViolations
           timestamp := d.timestamp
           location := d.location
           vehicleType := if d.vehicleType = "" then "unknown" else d.vehicleType }

/-- One step of the per-vehicle part of SpeedProcessor.processSpeedData: the
Map lookup-or-create of updateVehicleState (speedProcessor.js line 145)
followed by the state update itself. -/
def applyReading (speedLimit : ℚ) (acc : Option VehicleState) (d : SpeedData) : VehicleState :=
  updateVehicleState speedLimit (acc.getD (freshVehicleState d.vehicleId)) d

/-- Folding a sequence of readings for one vehicle through updateVehicleState,
starting from no entry in the vehicle-state map. -/
def runUpdates (speedLimit : ℚ) (ds : List SpeedData) : Option VehicleState :=
  ds.foldl (fun acc d => some (applyReading speedLimit acc d)) none

/-- The update-then-classify step of processSpeedData (speedProcessor.js
lines 46-49): the classifier sees the freshly updated snapshot. -/
def processReading (speedLimit : ℚ) (consecutiveLimit : Nat)
    (acc : Option VehicleState) (d : SpeedData) : VehicleState × Option Violation :=
  let st := applyReading speedLimit acc d
  (st, checkSpeedViolation speedLimit consecutiveLimit d st)

/-- The per-strategy data returned by the processViolation methods of
SimpleViolationStrategy / ConsecutiveViolationStrategy / CriticalViolationStrategy
(alertSystem.js lines 296-345).  The interpolated free-text `description`
string carries no verified property and is not modelled. -/
structure StrategyData where
  priority : String
  recommendedAction : String
  escalated : Bool := false
  requiresImmediate : Bool := false
deriving Repr, DecidableEq

/-- SimpleViolationStrategy.processViolation (alertSystem.js lines 301-307). -/
def simpleStrategyData : StrategyData :=
  { priority := "NORMAL", recommendedAction := "Monitor vehicle speed" }

/-- ConsecutiveViolationStrategy.processViolation (alertSystem.js lines 318-325). -/
def consecutiveStrategyData : StrategyData :=
  { priority := "HIGH"
    recommendedAction := "Immediate intervention required"
    escalated := true }

/-- CriticalViolationStrategy.processViolation (alertSystem.js lines 336-344). -/
def criticalStrategyData : StrategyData :=
  { priority := "CRITICAL"
    recommendedAction := "Emergency response required"
    escalated := true
    requiresImmediate := true }

/-- AlertSystem.determineStrategy (alertSystem.js lines 92-105), returning the
strategy key.  The registered `pattern` strategy is dead code: no branch of
determineStrategy selects it. -/
def determineStrategy (v : Violation) : String :=
  if v.severity = "CRITICAL" then "critical"
  else if v.isConsecutive then "consecutive"
  else "simple"

/-- Dispatch from a strategy key to the pure data its processViolation returns. -/
def strategyDataFor (name : String) : StrategyData :=
  if name = "critical" then criticalStrategyData
  else if name = "consecutive" then consecutiveStrategyData
  else simpleStrategyData

/-- Alert object built by AlertSystem.createAlert (alertSystem.js lines 129-151)
merged with the selected strategy's data.  The Date.now-based `id` string is
omitted (impure, carried by no verified property); `createdAt` is the `now`
passed to processViolation. -/
structure Alert where
  type : String
  severity : String
  vehicleId : String
  speed : ℚ
  speedLimit : ℚ
  exceedAmount : ℚ
  exceedPercentage : ℚ
  location : Option (ℚ × ℚ)
  vehicleType : String
  timestamp : Nat
  createdAt : Nat
  isConsecutive : Bool
  consecutiveCount : Nat
  status : String
  priority : String
  recommendedAction : String
  escalated : Bool
  requiresImmediate : Bool
deriving Repr, DecidableEq

/-- AlertSystem.createAlert (alertSystem.js lines 129-151). -/
def createAlert (now : Nat) (v : Violation) (data : StrategyData) : Alert :=
  { type := "SPEED_VIOLATION"
    severity := v.severity
    vehicleId := v.vehicleId
    speed := v.speed
    speedLimit := v.speedLimit
    exceedAmount := v.exceedAmount
    exceedPercentage := v.exceedPercentage
    location := v.location
    vehicleType := v.vehicleType
    timestamp := v.timestamp
    createdAt := now
    isConsecutive := v.isConsecutive
    consecutiveCount := v.consecutiveCount
    status := "ACTIVE"
    priority := data.priority
    recommendedAction := data.recommendedAction
    escalated := data.escalated
    requiresImmediate := data.requiresImmediate }

/-- Entry of AlertSystem.activeAlerts (alertSystem.js lines 167-171).  The
Date.now-based alertId string is omitted. -/
structure ActiveAlertEntry where
  lastAlert : Nat
  severity : String
deriving Repr, DecidableEq

/-- In-memory state of AlertSystem: the newest-first alertHistory array and the
activeAlerts Map keyed by vehicle id. -/
structure AlertSystemState where
  alertHistory : List Alert
  activeAlerts : String → Option ActiveAlertEntry

/-- AlertSystem constructor value maxHistorySize (alertSystem.js line 16). -/
def maxHistorySize : Nat := 1000

/-- AlertSystem constructor value suppressionWindow, 30 s (alertSystem.js line 17). -/
def suppressionWindow : Nat := 30000

/-- AlertSystem.shouldSuppressAlert (alertSystem.js lines 112-121): suppress
when an active-alert entry for the vehicle exists and now - lastAlert is below
the suppression window. -/
def shouldSuppressAlert (now : Nat) (s : AlertSystemState) (v : Violation) : Bool :=
  match s.activeAlerts v.vehicleId with
  | none => false
  | some activeAlert => now - activeAlert.lastAlert < suppressionWindow

/-- AlertSystem.storeAlert (alertSystem.js lines 157-172): unshift the alert
onto the history, pop the last (oldest) entry once the size cap is exceeded,
then overwrite the vehicle's active-alert entry with the current time. -/
def storeAlert (now : Nat) (s : AlertSystemState) (alert : Alert) : AlertSystemState :=
  let history := alert :: s.alertHistory
  { alertHistory := if history.length > maxHistorySize then history.dropLast else history
    activeAlerts := fun vid =>
      if vid = alert.vehicleId then
        some { lastAlert := now, severity := alert.severity }
      else s.activeAlerts vid }

/-- Result of AlertSystem.processViolation: either the suppressed early return
(alertSystem.js lines 47-53) or a created alert. -/
inductive AlertOutcome where
  | suppressed
  | created (alert : Alert)
deriving Repr, DecidableEq

/-- AlertSystem.processViolation (alertSystem.js lines 44-85): suppression
check, strategy selection, alert creation, storeAlert.  sendNotifications does
not change AlertSystem state and every strategy in scope is total, so the
catch branch at lines 76-84 is unreachable in this model. -/
def processViolation (now : Nat) (s : AlertSystemState) (v : Violation) :
    AlertOutcome × AlertSystemState :=
  if shouldSuppressAlert now s v then
    (.suppressed, s)
  else
    let data := strategyDataFor (determineStrategy v)
    let alert := createAlert now v data
    (.created alert, storeAlert now s alert)

/-- ASCII alphanumeric test matching the JS regex used for vehicle ids. -/
def isAlphanumChar (c : Char) : Bool := c.isAlpha || c.isDigit

/-- Required-field validation of SimpleSpeedValidator.validateSpeedData
(simpleSpeedValidator.js lines 28-68) on the already-structured reading:
vehicleId 3-20 ASCII alphanumeric characters, speed within 0..500.
Timestamp / location / metadata normalization concerns wall-clock Date parsing
and free-form maps, which no verified property depends on; their checks are
not modelled. -/
def validateSpeedData (d : SpeedData) : Bool :=
  3 ≤ d.vehicleId.length && d.vehicleId.length ≤ 20 &&
  d.vehicleId.data.all isAlphanumChar &&
  0 ≤ d.speed && d.speed ≤ 500

/-- Configuration surface of SpeedProcessor (constructor, speedProcessor.js
lines 11-21): speed limit, consecutive threshold, and whether the injected
dataStore / alertSystem collaborators are non-null. -/
structure ProcConfig where
  speedLimit : ℚ
  consecutiveLimit : Nat
  hasDataStore : Bool
  hasAlertSystem : Bool

/-- Mutable state of SpeedProcessor: the vehicleStates Map and the two
statistics counters. -/
structure ProcState where
  vehicleStates : String → Option VehicleState
  processedCount : Nat
  violationCount : Nat

/-- Pointwise update of the vehicleStates Map (this.vehicleStates.set). -/
def setVehicleState (m : String → Option VehicleState) (vid : String)
    (st : VehicleState) : String → Option VehicleState :=
  fun k => if k = vid then some st else m k

/-- How one processSpeedData call returns: validation failure (lines 33-40),
an error caught at line 69, or the normal return (lines 61-67) carrying the
violation, if any. -/
inductive ProcOutcome where
  | validationFailed
  | caughtError
  | ok (violation : Option Violation)

/-- Result of one processSpeedData call: its outcome, the SpeedProcessor and
AlertSystem states after the call, and whether the dataStore.saveSpeedRecord
and alertSystem.processViolation collaborator calls were reached. -/
structure ProcResult where
  outcome : ProcOutcome
  proc : ProcState
  alertSys : AlertSystemState
  saveInvoked : Bool
  alertInvoked : Bool

/-- SpeedProcessor.processSpeedData (speedProcessor.js lines 28-79).
The whole body sits in one try/catch: validate; bump processedCount;
updateVehicleState (mutates the Map before anything can throw);
checkSpeedViolation (its this.violationCount++ side effect is applied here);
await dataStore.saveSpeedRecord — modelled by the saveThrows flag, a throwing
save jumps to the catch with every state mutation so far retained;
then alertSystem.processViolation.  `now` is the clock value the alert system
reads during the call. -/
def processSpeedData (cfg : ProcConfig) (saveThrows : Bool) (now : Nat)
    (ps : ProcState) (alertSys : AlertSystemState) (d : SpeedData) : ProcResult :=
  if !(validateSpeedData d) then
    { outcome := .validationFailed, proc := ps, alertSys := alertSys
      saveInvoked := false, alertInvoked := false }
  else
    let ps1 : ProcState := { ps with processedCount := ps.processedCount + 1 }
    let prev := (ps1.vehicleStates d.vehicleId).getD (freshVehicleState d.vehicleId)
    let vehicleState := updateVehicleState cfg.speedLimit prev d
    let ps2 : ProcState :=
      { ps1 with vehicleStates := setVehicleState ps1.vehicleStates d.vehicleId vehicleState }
    let violation := checkSpeedViolation cfg.speedLimit cfg.consecutiveLimit d vehicleState
    let ps3 : ProcState :=
      { ps2 with violationCount := ps2.violationCount + (if violation.isSome then 1 else 0) }
    if cfg.hasDataStore && saveThrows then
      { outcome := .caughtError, proc := ps3, alertSys := alertSys
        saveInvoked := true, alertInvoked := false }
    else
      match violation with
      | some v =>
          if cfg.hasAlertSystem then
            let r := processViolation now alertSys v
            { outcome := .ok (some v), proc := ps3, alertSys := r.2
              saveInvoked := cfg.hasDataStore, alertInvoked := true }
          else
            { outcome := .ok (some v), proc := ps3, alertSys := alertSys
              saveInvoked := cfg.hasDataStore, alertInvoked := false }
      | none =>
          { outcome := .ok none, proc := ps3, alertSys := alertSys
            saveInvoked := cfg.hasDataStore, alertInvoked := false }

/-- JSON value tree: the result type of the modelled JSON.parse and the shape
of pre-parsed payload objects handed to the MQTT message handler. -/
inductive JsonValue where
  | null
  | bool (b : Bool)
  | num (q : ℚ)
  | str (s : String)
  | arr (elems : List JsonValue)
  | obj (fields : List (String × JsonValue))
deriving Repr

/-- Opening brace character. -/
def lbraceChar : Char := Char.ofNat 123

/-- Closing brace character. -/
def rbraceChar : Char := Char.ofNat 125

/-- Double-quote character. -/
def quoteChar : Char := Char.ofNat 34

/-- Backslash character. -/
def backslashChar : Char := Char.ofNat 92

/-- JSON insignificant whitespace. -/
def isJsonWs (c : Char) : Bool :=
  c = ' ' || c = '\t' || c = '\n' || c = '\r'

/-- Drop leading JSON whitespace. -/
def skipWs : List Char → List Char
  | [] => []
  | c :: cs => if isJsonWs c then skipWs cs else c :: cs

/-- JavaScript String.prototype.trim on the common whitespace characters. -/
def jsTrim (s : String) : String :=
  String.mk ((skipWs ((skipWs s.data).reverse)).reverse)

/-- Numeric value of an ASCII digit. -/
def digitVal (c : Char) : Nat := c.toNat - 48

/-- Split a leading run of ASCII digits from the rest. -/
def takeDigits : List Char → List Char × List Char
  | [] => ([], [])
  | c :: cs =>
    if c.isDigit then
      let (ds, rest) := takeDigits cs
      (c :: ds, rest)
    else ([], c :: cs)

/-- Decimal value of a digit run. -/
def digitsToNat (ds : List Char) : Nat :=
  ds.foldl (fun acc c => acc * 10 + digitVal c) 0

/-- Parse a JSON number (sign, integer part, optional fraction, optional
exponent) into an exact rational. -/
def parseNumber (cs : List Char) : Option (ℚ × List Char) :=
  let (neg, cs1) :=
    match cs with
    | c :: rest => if c = '-' then (true, rest) else (false, cs)
    | [] => (false, [])
  match takeDigits cs1 with
  | ([], _) => none
  | (ints, cs2) =>
    let step2 : Option (ℚ × List Char) :=
      match cs2 with
      | c :: rest =>
        if c = '.' then
          match takeDigits rest with
          | ([], _) => none
          | (ds, cs3) =>
            some ((digitsToNat ints : ℚ) + (digitsToNat ds : ℚ) / (10 : ℚ) ^ ds.length, cs3)
        else some ((digitsToNat ints : ℚ), cs2)
      | [] => some ((digitsToNat ints : ℚ), [])
    match step2 with
    | none => none
    | some (mant, cs3) =>
      let step3 : Option (ℚ × List Char) :=
        match cs3 with
        | c :: rest =>
          if c = 'e' ∨ c = 'E' then
            let (esign, cs4) :=
              match rest with
              | c2 :: rest2 =>
                if c2 = '+' then ((1 : ℤ), rest2)
                else if c2 = '-' then ((-1 : ℤ), rest2)
                else ((1 : ℤ), rest)
              | [] => ((1 : ℤ), [])
            match takeDigits cs4 with
            | ([], _) => none
            | (ds, cs5) => some (mant * (10 : ℚ) ^ (esign * (digitsToNat ds : ℤ)), cs5)
          else some (mant, cs3)
        | [] => some (mant, [])
      match step3 with
      | none => none
      | some (v, rest) => some (if neg then -v else v, rest)

/-- Parse the body of a JSON string after its opening quote, returning content
and remainder after the closing quote.  The simple escapes of JSON are
handled; \u hex escapes (used by no property in scope) are treated as a parse
failure. -/
def parseStringBody : Nat → List Char → Option (List Char × List Char)
  | 0, _ => none
  | _ + 1, [] => none
  | fuel + 1, c :: rest =>
    if c = quoteChar then some ([], rest)
    else if c = backslashChar then
      match rest with
      | [] => none
      | e :: rest2 =>
        let esc : Option Char :=
          if e = quoteChar then some quoteChar
          else if e = backslashChar then some backslashChar
          else if e = '/' then some '/'
          else if e = 'n' then some '\n'
          else if e = 't' then some '\t'
          else if e = 'r' then some '\r'
          else if e = 'b' then some (Char.ofNat 8)
          else if e = 'f' then some (Char.ofNat 12)
          else none
        match esc with
        | none => none
        | some ec =>
          match parseStringBody fuel rest2 with
          | none => none
          | some (out, rem) => some (ec :: out, rem)
    else
      match parseStringBody fuel rest with
      | none => none
      | some (out, rem) => some (c :: out, rem)

mutual

/-- Fuel-indexed recursive-descent parser for a JSON value, the model of the
JSON.parse primitive used at mqttSpeedProcessor.js line 136. -/
def parseValue : Nat → List Char → Option (JsonValue × List Char)
  | 0, _ => none
  | fuel + 1, cs =>
    match skipWs cs with
    | 't' :: 'r' :: 'u' :: 'e' :: rem => some (.bool true, rem)
    | 'f' :: 'a' :: 'l' :: 's' :: 'e' :: rem => some (.bool false, rem)
    | 'n' :: 'u' :: 'l' :: 'l' :: rem => some (.null, rem)
    | c :: rest =>
      if c = quoteChar then
        match parseStringBody (rest.length + 1) rest with
        | none => none
        | some (content, rem) => some (.str (String.mk content), rem)
      else if c = lbraceChar then parseObjectFields fuel rest []
      else if c = '[' then parseArrayElems fuel rest []
      else if c.isDigit ∨ c = '-' then
        match parseNumber (c :: rest) with
        | none => none
        | some (q, rem) => some (.num q, rem)
      else none
    | [] => none

/-- Parse the fields of a JSON object, positioned right after the opening
brace or after a separating comma. -/
def parseObjectFields : Nat → List Char → List (String × JsonValue) →
    Option (JsonValue × List Char)
  | 0, _, _ => none
  | fuel + 1, cs, acc =>
    match skipWs cs with
    | [] => none
    | c :: rest =>
      if c = rbraceChar ∧ acc.isEmpty then some (.obj [], rest)
      else if c = quoteChar then
        match parseStringBody (rest.length + 1) rest with
        | none => none
        | some (key, cs2) =>
          match skipWs cs2 with
          | [] => none
          | c2 :: cs3 =>
            if c2 = ':' then
              match parseValue fuel cs3 with
              | none => none
              | some (v, cs4) =>
                match skipWs cs4 with
                | [] => none
                | c3 :: cs5 =>
                  if c3 = ',' then
                    parseObjectFields fuel cs5 (acc ++ [(String.mk key, v)])
                  else if c3 = rbraceChar then
                    some (.obj (acc ++ [(String.mk key, v)]), cs5)
                  else none
            else none
      else none

/-- Parse the elements of a JSON array, positioned right after the opening
bracket or after a separating comma. -/
def parseArrayElems : Nat → List Char → List JsonValue →
    Option (JsonValue × List Char)
  | 0, _, _ => none
  | fuel + 1, cs, acc =>
    match skipWs cs with
    | [] => none
    | c :: rest =>
      if c = ']' ∧ acc.isEmpty then some (.arr [], rest)
      else
        match parseValue fuel (c :: rest) with
        | none => none
        | some (v, cs2) =>
          match skipWs cs2 with
          | [] => none
          | c2 :: cs3 =>
            if c2 = ',' then parseArrayElems fuel cs3 (acc ++ [v])
            else if c2 = ']' then some (.arr (acc ++ [v]), cs3)
            else none

end

/-- Model of JSON.parse: parse one value and require only whitespace after it. -/
def jsonParse (s : String) : Option JsonValue :=
  match parseValue (s.length + 1) s.data with
  | none => none
  | some (v, rest) => if (skipWs rest).isEmpty then some v else none

/-- JavaScript truthiness of a JSON value (empty string, 0, false and null are
falsy; every object or array is truthy). -/
def jsTruthy : JsonValue → Bool
  | .null => false
  | .bool b => b
  | .num q => q != 0
  | .str s => s != ""
  | .arr _ => true
  | .obj _ => true

/-- Property lookup on a parsed object: with a duplicated key the last binding
wins, as for JavaScript object literals and JSON.parse. -/
def getField (fields : List (String × JsonValue)) (k : String) : Option JsonValue :=
  ((fields.filter (fun p => p.1 == k)).getLast?).map (fun p => p.2)

/-- JavaScript String(x) coercion for the payload shapes in scope.  The exact
decimal rendering of a non-integer number and of arrays is not modelled: no
verified property stringifies such a value. -/
def jsToString : JsonValue → String
  | .str s => s
  | .bool b => if b then "true" else "false"
  | .null => "null"
  | .num q => if q.den = 1 then toString q.num else "number"
  | .arr _ => ""
  | .obj _ => "[object Object]"

/-- An inbound MQTT payload as the handler receives it: a raw string, or a
value that was already parsed upstream (mqttSpeedProcessor.js lines 131-142:
strings and non-null objects are supported, anything else is rejected). -/
inductive MqttPayload where
  | str (s : String)
  | json (v : JsonValue)

/-- The normalized structure returned by MqttSpeedProcessor.parseSpeedMessage
(lines 160-167).  A `none` timestamp / location / metadata stands for the
falsy-field defaults (ingestion time, null, null). -/
structure ParsedSpeed where
  vehicleId : String
  speed : ℚ
  timestamp : Option JsonValue
  location : Option JsonValue
  vehicleType : JsonValue
  metadata : Option JsonValue
deriving Repr

/-- The fields visible through property lookup on a value that passed the
typeof-object test: objects expose their fields, arrays expose none of the
names in scope here. -/
def objectLikeFields : JsonValue → Option (List (String × JsonValue))
  | .obj fields => some fields
  | .arr _ => some []
  | _ => none

/-- The `x || default` pattern: keep the field value only when truthy. -/
def truthyOrNone (v : Option JsonValue) : Option JsonValue :=
  match v with
  | some x => if jsTruthy x then some x else none
  | none => none

/-- MqttSpeedProcessor.parseSpeedMessage (mqttSpeedProcessor.js lines 126-176):
reject empty/blank strings, parse JSON strings (a parse exception is caught
and becomes the invalid result), accept pre-parsed non-null objects, reject
any other payload type; then require a truthy vehicleId and a numeric speed
within 0..500, and normalize the remaining fields with falsy-field defaults. -/
def parseSpeedMessage (message : MqttPayload) : Option ParsedSpeed :=
  let parsed : Option JsonValue :=
    match message with
    | .str s => if s = "" ∨ (jsTrim s).length = 0 then none else jsonParse s
    | .json v =>
      match v with
      | .obj _ => some v
      | .arr _ => some v
      | _ => none
  match parsed with
  | none => none
  | some pv =>
    match objectLikeFields pv with
    | none => none
    | some fields =>
      match getField fields "vehicleId" with
      | none => none
      | some vid =>
        if !(jsTruthy vid) then none
        else
          match getField fields "speed" with
          | some (.num speed) =>
            if speed < 0 ∨ speed > 500 then none
            else
              some { vehicleId := jsTrim (jsToString vid)
                     speed := speed
                     timestamp := truthyOrNone (getField fields "timestamp")
                     location := truthyOrNone (getField fields "location")
                     vehicleType :=
                       (match truthyOrNone (getField fields "vehicleType") with
                        | some v => v
                        | none => .str "unknown")
                     metadata := truthyOrNone (getField fields "metadata") }
          | _ => none

/-- The vehicle-type whitelist of SimpleSpeedValidator (line 7). -/
def validVehicleTypes : List String :=
  ["car", "truck", "bus", "motorcycle", "emergency", "public", "unknown"]

/-- The `a.k1 || a.k2` alternative-key lookup used for lat/latitude and
lng/longitude in the validator's location normalization. -/
def jsOrField (fields : List (String × JsonValue)) (k1 k2 : String) : Option JsonValue :=
  match truthyOrNone (getField fields k1) with
  | some v => some v
  | none => getField fields k2

/-- Decode a location object into a lat/lng pair when both coordinates are
numeric, as the validator's normalization produces. -/
def decodeLocation : Option JsonValue → Option (ℚ × ℚ)
  | some (.obj fields) =>
    match jsOrField fields "lat" "latitude", jsOrField fields "lng" "longitude" with
    | some (.num lat), some (.num lng) => some (lat, lng)
    | _, _ => none
  | _ => none

/-- Bridge from the parsed MQTT payload to the structured reading consumed by
the SpeedProcessor model, performing the downstream normalization of
SimpleSpeedValidator: numeric timestamps taken as epoch ms (string timestamps
go through wall-clock Date parsing, which is not modelled: the ingestion time
`now` stands in), location decoded when fully numeric, vehicle type coerced to
the whitelist. -/
def toSpeedData (now : Nat) (p : ParsedSpeed) : SpeedData :=
  { vehicleId := p.vehicleId
    speed := p.speed
    timestamp :=
      (match p.timestamp with
       | some (.num q) => if q.den = 1 ∧ 0 ≤ q.num then q.num.toNat else now
       | _ => now)
    location := decodeLocation p.location
    vehicleType :=
      (match p.vehicleType with
       | .str s => if validVehicleTypes.contains s then s else "unknown"
       | _ => "unknown") }

/-- Alerts published by MqttSpeedProcessor.generateAlerts on the
vehicles/alerts topic (lines 192-223): the SIMPLE alert for any violation
above the limit and the CRITICAL alert for a consecutive streak at or beyond
the threshold. -/
inductive PublishedAlert where
  | simple (vehicleId : String) (speed : ℚ)
  | critical (vehicleId : String) (speed : ℚ) (consecutiveCount : Nat)
deriving Repr, DecidableEq

/-- MqttSpeedProcessor.generateAlerts (lines 182-228) as the list of messages
published for one processing result. -/
def generateAlerts (cfg : ProcConfig) (violation : Option Violation) : List PublishedAlert :=
  match violation with
  | none => []
  | some v =>
    (if cfg.speedLimit < v.speed then [.simple v.vehicleId v.speed] else []) ++
    (if v.isConsecutive ∧ cfg.consecutiveLimit ≤ v.consecutiveCount then
       [.critical v.vehicleId v.speed v.consecutiveCount]
     else [])

/-- Observable state of the whole MqttSpeedProcessor: its message/error
counters plus the SpeedProcessor and AlertSystem states it owns. -/
structure SystemState where
  messageCount : Nat
  errorCount : Nat
  proc : ProcState
  alertSys : AlertSystemState

/-- Result of one handleSpeedMessage call: the new system state, the alerts
published to the outbound topic, and the normalized reading, when one was
produced by the parse step. -/
structure HandleResult where
  state : SystemState
  published : List PublishedAlert
  processed : Option SpeedData

/-- MqttSpeedProcessor.handleSpeedMessage (mqttSpeedProcessor.js lines 79-119):
count the message; an invalid parse only bumps the error counter and returns;
otherwise run processSpeedData, count an error on a non-success result, and
generate outbound alerts on success.  The function is total: no path rethrows
to the MQTT client, so the stream keeps running. -/
def handleSpeedMessage (cfg : ProcConfig) (saveThrows : Bool) (now : Nat)
    (s : SystemState) (message : MqttPayload) : HandleResult :=
  let s1 : SystemState := { s with messageCount := s.messageCount + 1 }
  match parseSpeedMessage message with
  | none =>
    { state := { s1 with errorCount := s1.errorCount + 1 }
      published := []
      processed := none }
  | some p =>
    let d := toSpeedData now p
    let r := processSpeedData cfg saveThrows now s1.proc s1.alertSys d
    match r.outcome with
    | .ok viol =>
      { state := { s1 with proc := r.proc, alertSys := r.alertSys }
        published := generateAlerts cfg viol
        processed := some d }
    | _ =>
      { state := { s1 with proc := r.proc, alertSys := r.alertSys
                           errorCount := s1.errorCount + 1 }
        published := []
        processed := some d }

section Claims

/-- Helper reading for concrete instances: a valid vehicle id and a given speed. -/
def mkReading (speed : ℚ) : SpeedData :=
  { vehicleId := "ABC123", speed := speed, timestamp := 0 }

/-- C1 counterexample: with speed limit 60, a reading at exactly 25 percent
over the limit (speed 75) is classified MEDIUM — not HIGH as the claim states —
and a reading at exactly 50 percent over (speed 90) is classified HIGH, not
CRITICAL: with strict thresholds the boundary readings fall to the lower tier. -/
theorem claim_C1_boundary_counterexample :
    ((checkSpeedViolation 60 3 (mkReading 75) (freshVehicleState "ABC123")).map
        (fun v => v.severity) = some "MEDIUM") ∧
    ((checkSpeedViolation 60 3 (mkReading 75) (freshVehicleState "ABC123")).map
        (fun v => v.severity) ≠ some "HIGH") ∧
    ((checkSpeedViolation 60 3 (mkReading 90) (freshVehicleState "ABC123")).map
        (fun v => v.severity) = some "HIGH") ∧
    ((checkSpeedViolation 60 3 (mkReading 90) (freshVehicleState "ABC123")).map
        (fun v => v.severity) ≠ some "CRITICAL") := by
  have h75 : (checkSpeedViolation 60 3 (mkReading 75) (freshVehicleState "ABC123")).map
      (fun v => v.severity) = some "MEDIUM" := by
    simp [checkSpeedViolation, severityFor, mkReading]
    norm_num
  have h90 : (checkSpeedViolation 60 3 (mkReading 90) (freshVehicleState "ABC123")).map
      (fun v => v.severity) = some "HIGH" := by
    simp [checkSpeedViolation, severityFor, mkReading]
    norm_num
  refine ⟨h75, ?_, h90, ?_⟩
  · rw [h75]; simp
  · rw [h90]; simp

/-- The four severity tiers of the classifier ladder, characterized by the
exceed-percentage intervals they cover. -/
lemma severityFor_cases (pct : ℚ) :
    (severityFor pct = "CRITICAL" ↔ 50 < pct) ∧
    (severityFor pct = "HIGH" ↔ 25 < pct ∧ pct ≤ 50) ∧
    (severityFor pct = "MEDIUM" ↔ 10 < pct ∧ pct ≤ 25) ∧
    (severityFor pct = "LOW" ↔ pct ≤ 10) := by
  unfold severityFor
  split_ifs with h1 h2 h3 <;>
    refine ⟨?_, ?_, ?_, ?_⟩ <;>
      simp_all <;>
        first
          | linarith
          | (intro h; linarith)

/-- Unfolding of checkSpeedViolation on a violating reading. -/
lemma checkSpeedViolation_eq_some (speedLimit : ℚ) (consecutiveLimit : Nat)
    (d : SpeedData) (st : VehicleState) (h : speedLimit < d.speed) :
    checkSpeedViolation speedLimit consecutiveLimit d st = some
      { vehicleId := d.vehicleId
        speed := d.speed
        speedLimit := speedLimit
        exceedAmount := d.speed - speedLimit
        exceedPercentage := round2 ((d.speed - speedLimit) / speedLimit * 100)
        severity := severityFor ((d.speed - speedLimit) / speedLimit * 100)
        isConsecutive := st.consecutiveViolations ≥ consecutiveLimit
        consecutiveCount := st.consecutiveViolations
        timestamp := d.timestamp
        location := d.location
        vehicleType := if d.vehicleType = "" then "unknown" else d.vehicleType } := by
  unfold checkSpeedViolation
  rw [if_neg (not_le.mpr h)]

/-- C1 (amended): severity is assigned by fixed strict thresholds on the exceed
percentage (over 50 CRITICAL, over 25 HIGH, over 10 MEDIUM, else LOW), and the
boundaries fall to the lower tier: a reading at exactly 25 percent over the
limit is MEDIUM and a reading at exactly 50 percent over is HIGH. -/
theorem claim_C1_severity_thresholds
    (speedLimit : ℚ) (consecutiveLimit : Nat) (st : VehicleState)
    (d d25 d50 : SpeedData)
    (hlim : 0 < speedLimit)
    (h25 : d25.speed = speedLimit + speedLimit / 4)
    (h50 : d50.speed = speedLimit + speedLimit / 2) :
    (∀ v, checkSpeedViolation speedLimit consecutiveLimit d st = some v →
      ((v.severity = "CRITICAL" ↔ 50 < (d.speed - speedLimit) / speedLimit * 100) ∧
       (v.severity = "HIGH" ↔ 25 < (d.speed - speedLimit) / speedLimit * 100 ∧
          (d.speed - speedLimit) / speedLimit * 100 ≤ 50) ∧
       (v.severity = "MEDIUM" ↔ 10 < (d.speed - speedLimit) / speedLimit * 100 ∧
          (d.speed - speedLimit) / speedLimit * 100 ≤ 25) ∧
       (v.severity = "LOW" ↔ (d.speed - speedLimit) / speedLimit * 100 ≤ 10))) ∧
    ((checkSpeedViolation speedLimit consecutiveLimit d25 st).map
        (fun v => v.severity) = some "MEDIUM") ∧
    ((checkSpeedViolation speedLimit consecutiveLimit d50 st).map
        (fun v => v.severity) = some "HIGH") := by
  have hne : speedLimit ≠ 0 := ne_of_gt hlim
  refine ⟨?_, ?_, ?_⟩
  · intro v hv
    unfold checkSpeedViolation at hv
    split at hv
    · exact absurd hv (by simp)
    · cases hv
      exact severityFor_cases _
  · have hgt : speedLimit < d25.speed := by rw [h25]; linarith
    have hpct : (d25.speed - speedLimit) / speedLimit * 100 = 25 := by
      rw [h25]; field_simp; ring
    rw [checkSpeedViolation_eq_some speedLimit consecutiveLimit d25 st hgt]
    simp only [Option.map_some', Option.some.injEq]
    show severityFor ((d25.speed - speedLimit) / speedLimit * 100) = "MEDIUM"
    rw [hpct]
    unfold severityFor
    norm_num
  · have hgt : speedLimit < d50.speed := by rw [h50]; linarith
    have hpct : (d50.speed - speedLimit) / speedLimit * 100 = 50 := by
      rw [h50]; field_simp; ring
    rw [checkSpeedViolation_eq_some speedLimit consecutiveLimit d50 st hgt]
    simp only [Option.map_some', Option.some.injEq]
    show severityFor ((d50.speed - speedLimit) / speedLimit * 100) = "HIGH"
    rw [hpct]
    unfold severityFor
    norm_num

/-- C1 witness: the amended theorem applied at speed limit 60 with boundary
readings at speeds 75 and 90. -/
theorem claim_C1_severity_thresholds_witness :
    (0 : ℚ) < 60 ∧ (mkReading 75).speed = 60 + 60 / 4 ∧
      (mkReading 90).speed = 60 + 60 / 2 ∧
      (((checkSpeedViolation 60 3 (mkReading 75) (freshVehicleState "ABC123")).map
          (fun v => v.severity) = some "MEDIUM") ∧
       ((checkSpeedViolation 60 3 (mkReading 90) (freshVehicleState "ABC123")).map
          (fun v => v.severity) = some "HIGH")) :=
  ⟨by norm_num, by norm_num [mkReading], by norm_num [mkReading],
    (claim_C1_severity_thresholds 60 3 (freshVehicleState "ABC123")
      (mkReading 80) (mkReading 75) (mkReading 90)
      (by norm_num) (by norm_num [mkReading]) (by norm_num [mkReading])).2⟩

/-- C6: for every valid reading with speed over the limit, checkSpeedViolation
produces exactly one Violation, carrying exceedAmount = speed - limit and
exceedPercentage = (speed - limit) / limit * 100 rounded to two decimal
places. -/
theorem claim_C6_violation_fields
    (speedLimit : ℚ) (consecutiveLimit : Nat) (d : SpeedData) (st : VehicleState)
    (hvalid : validateSpeedData d = true)
    (hlim : 0 < speedLimit) (hover : speedLimit < d.speed) :
    ∃ v, checkSpeedViolation speedLimit consecutiveLimit d st = some v ∧
      v.exceedAmount = d.speed - speedLimit ∧
      v.exceedPercentage = round2 ((d.speed - speedLimit) / speedLimit * 100) :=
  ⟨_, checkSpeedViolation_eq_some speedLimit consecutiveLimit d st hover, rfl, rfl⟩

/-- C6 witness: the reading of the end-to-end scenario, speed 95 against
limit 60, whose violation carries exceedAmount 35 and exceedPercentage 58.33. -/
theorem claim_C6_violation_fields_witness :
    validateSpeedData (mkReading 95) = true ∧ (0 : ℚ) < 60 ∧ (60 : ℚ) < (mkReading 95).speed ∧
    (∃ v, checkSpeedViolation 60 3 (mkReading 95) (freshVehicleState "ABC123") = some v ∧
      v.exceedAmount = (mkReading 95).speed - 60 ∧
      v.exceedPercentage = round2 (((mkReading 95).speed - 60) / 60 * 100)) :=
  ⟨by decide, by norm_num, by norm_num [mkReading],
    claim_C6_violation_fields 60 3 (mkReading 95) (freshVehicleState "ABC123")
      (by decide) (by norm_num) (by norm_num [mkReading])⟩

/-- C7: for every valid reading with speed at or below the limit, the
classifier returns no violation, the alert system is neither invoked nor
changed, and the reading is still handed to the persistence collaborator. -/
theorem claim_C7_below_limit_no_alert
    (cfg : ProcConfig) (saveThrows : Bool) (now : Nat)
    (ps : ProcState) (alertSys : AlertSystemState) (d : SpeedData)
    (hvalid : validateSpeedData d = true)
    (hle : d.speed ≤ cfg.speedLimit)
    (hds : cfg.hasDataStore = true) :
    (∀ st, checkSpeedViolation cfg.speedLimit cfg.consecutiveLimit d st = none) ∧
    (processSpeedData cfg saveThrows now ps alertSys d).alertInvoked = false ∧
    (processSpeedData cfg saveThrows now ps alertSys d).alertSys = alertSys ∧
    (processSpeedData cfg saveThrows now ps alertSys d).saveInvoked = true := by
  have hchk : ∀ st, checkSpeedViolation cfg.speedLimit cfg.consecutiveLimit d st = none := by
    intro st
    unfold checkSpeedViolation
    rw [if_pos hle]
  refine ⟨hchk, ?_⟩
  unfold processSpeedData
  rw [hvalid]
  simp only [Bool.not_true, Bool.false_eq_true, if_false, hchk, hds]
  cases saveThrows <;> simp

/-- C7 witness: a valid reading at speed 50 against limit 60 with both
collaborators present. -/
theorem claim_C7_below_limit_no_alert_witness :
    validateSpeedData (mkReading 50) = true ∧
    (mkReading 50).speed ≤ (60 : ℚ) ∧
    (ProcConfig.mk 60 3 true true).hasDataStore = true ∧
    ((∀ st, checkSpeedViolation 60 3 (mkReading 50) st = none) ∧
      (processSpeedData (ProcConfig.mk 60 3 true true) false 0
        (ProcState.mk (fun _ => none) 0 0) (AlertSystemState.mk [] (fun _ => none))
        (mkReading 50)).alertInvoked = false ∧
      (processSpeedData (ProcConfig.mk 60 3 true true) false 0
        (ProcState.mk (fun _ => none) 0 0) (AlertSystemState.mk [] (fun _ => none))
        (mkReading 50)).alertSys = AlertSystemState.mk [] (fun _ => none) ∧
      (processSpeedData (ProcConfig.mk 60 3 true true) false 0
        (ProcState.mk (fun _ => none) 0 0) (AlertSystemState.mk [] (fun _ => none))
        (mkReading 50)).saveInvoked = true) :=
  ⟨by decide, by norm_num [mkReading], rfl,
    claim_C7_below_limit_no_alert (ProcConfig.mk 60 3 true true) false 0
      (ProcState.mk (fun _ => none) 0 0) (AlertSystemState.mk [] (fun _ => none))
      (mkReading 50) (by decide) (by norm_num [mkReading]) rfl⟩

/-- Violating update: the consecutive counter is incremented. -/
lemma updateVehicleState_consecutive_viol (speedLimit : ℚ) (st : VehicleState)
    (d : SpeedData) (h : speedLimit < d.speed) :
    (updateVehicleState speedLimit st d).consecutiveViolations =
      st.consecutiveViolations + 1 := by
  unfold updateVehicleState
  rw [if_pos h]

/-- Non-violating update: the consecutive counter resets to zero. -/
lemma updateVehicleState_consecutive_ok (speedLimit : ℚ) (st : VehicleState)
    (d : SpeedData) (h : d.speed ≤ speedLimit) :
    (updateVehicleState speedLimit st d).consecutiveViolations = 0 := by
  unfold updateVehicleState
  rw [if_neg (not_lt.mpr h)]

/-- The lifetime counter moves exactly on violating updates and is never
reset. -/
lemma updateVehicleState_total (speedLimit : ℚ) (st : VehicleState) (d : SpeedData) :
    (updateVehicleState speedLimit st d).totalViolations =
      st.totalViolations + (if speedLimit < d.speed then 1 else 0) := by
  unfold updateVehicleState
  split_ifs <;> rfl

/-- C5: the consecutive-streak flag on a Violation is set exactly when the
snapshot counter has reached the configured threshold, the recorded streak
length is the counter value itself (not capped); with threshold 3 and three
consecutive violating readings of a fresh vehicle, the third violation is
flagged and the first two are not. -/
theorem claim_C5_streak_flag
    (speedLimit : ℚ) (d1 d2 d3 : SpeedData)
    (h1 : speedLimit < d1.speed) (h2 : speedLimit < d2.speed)
    (h3 : speedLimit < d3.speed) :
    (∀ (consecutiveLimit : Nat) (st : VehicleState) (d : SpeedData) (v : Violation),
        checkSpeedViolation speedLimit consecutiveLimit d st = some v →
          v.isConsecutive = decide (consecutiveLimit ≤ st.consecutiveViolations) ∧
          v.consecutiveCount = st.consecutiveViolations) ∧
    (∃ v1 v2 v3,
      (processReading speedLimit 3 none d1).2 = some v1 ∧
      (processReading speedLimit 3 (some (processReading speedLimit 3 none d1).1) d2).2
        = some v2 ∧
      (processReading speedLimit 3
          (some (processReading speedLimit 3
            (some (processReading speedLimit 3 none d1).1) d2).1) d3).2 = some v3 ∧
      v1.isConsecutive = false ∧ v2.isConsecutive = false ∧
      v3.isConsecutive = true ∧ v3.consecutiveCount = 3) := by
  have hgen : ∀ (consecutiveLimit : Nat) (st : VehicleState) (d : SpeedData) (v : Violation),
      checkSpeedViolation speedLimit consecutiveLimit d st = some v →
        v.isConsecutive = decide (consecutiveLimit ≤ st.consecutiveViolations) ∧
        v.consecutiveCount = st.consecutiveViolations := by
    intro consecutiveLimit st d v hv
    unfold checkSpeedViolation at hv
    split at hv
    · exact absurd hv (by simp)
    · cases hv
      exact ⟨rfl, rfl⟩
  refine ⟨hgen, ?_⟩
  have e1 : (applyReading speedLimit none d1).consecutiveViolations = 1 := by
    show (updateVehicleState speedLimit (freshVehicleState d1.vehicleId)
        d1).consecutiveViolations = 1
    rw [updateVehicleState_consecutive_viol speedLimit _ d1 h1]
    rfl
  have e2 : (applyReading speedLimit (some (applyReading speedLimit none d1))
      d2).consecutiveViolations = 2 := by
    show (updateVehicleState speedLimit (applyReading speedLimit none d1)
        d2).consecutiveViolations = 2
    rw [updateVehicleState_consecutive_viol speedLimit _ d2 h2, e1]
  have e3 : (applyReading speedLimit (some (applyReading speedLimit
      (some (applyReading speedLimit none d1)) d2)) d3).consecutiveViolations = 3 := by
    show (updateVehicleState speedLimit (applyReading speedLimit
        (some (applyReading speedLimit none d1)) d2) d3).consecutiveViolations = 3
    rw [updateVehicleState_consecutive_viol speedLimit _ d3 h3, e2]
  simp only [processReading]
  refine ⟨_, _, _,
    checkSpeedViolation_eq_some speedLimit 3 d1 _ h1,
    checkSpeedViolation_eq_some speedLimit 3 d2 _ h2,
    checkSpeedViolation_eq_some speedLimit 3 d3 _ h3, ?_, ?_, ?_, ?_⟩
  · rw [e1]
    rfl
  · rw [e2]
    rfl
  · rw [e3]
    rfl
  · rw [e3]

/-- C5 witness: three violating readings at speeds 65, 67.5 and 70 against
limit 60 (the VEH003 end-to-end scenario). -/
theorem claim_C5_streak_flag_witness :
    ((60 : ℚ) < (mkReading 65).speed ∧ (60 : ℚ) < (mkReading (135/2)).speed ∧
      (60 : ℚ) < (mkReading 70).speed) ∧
    (∃ v1 v2 v3,
      (processReading 60 3 none (mkReading 65)).2 = some v1 ∧
      (processReading 60 3 (some (processReading 60 3 none (mkReading 65)).1)
        (mkReading (135/2))).2 = some v2 ∧
      (processReading 60 3
          (some (processReading 60 3
            (some (processReading 60 3 none (mkReading 65)).1) (mkReading (135/2))).1)
          (mkReading 70)).2 = some v3 ∧
      v1.isConsecutive = false ∧ v2.isConsecutive = false ∧
      v3.isConsecutive = true ∧ v3.consecutiveCount = 3) :=
  ⟨⟨by norm_num [mkReading], by norm_num [mkReading], by norm_num [mkReading]⟩,
    (claim_C5_streak_flag 60 (mkReading 65) (mkReading (135/2)) (mkReading 70)
      (by norm_num [mkReading]) (by norm_num [mkReading]) (by norm_num [mkReading])).2⟩

/-- Once an entry exists, each further fold step is a plain updateVehicleState. -/
lemma foldl_update_some (speedLimit : ℚ) (ds : List SpeedData) :
    ∀ st : VehicleState,
      ds.foldl (fun acc d => some (applyReading speedLimit acc d)) (some st) =
        some (ds.foldl (fun s d => updateVehicleState speedLimit s d) st) := by
  induction ds with
  | nil => intro st; rfl
  | cons d rest ih =>
    intro st
    simp only [List.foldl_cons]
    exact ih _

/-- Over a run of violating readings both violation counters advance by the
run's length. -/
lemma foldl_update_violations (speedLimit : ℚ) (ds : List SpeedData) :
    (∀ d ∈ ds, speedLimit < d.speed) →
    ∀ st : VehicleState,
      (ds.foldl (fun s d => updateVehicleState speedLimit s d) st).consecutiveViolations =
        st.consecutiveViolations + ds.length ∧
      (ds.foldl (fun s d => updateVehicleState speedLimit s d) st).totalViolations =
        st.totalViolations + ds.length := by
  induction ds with
  | nil => intro _ st; simp
  | cons d rest ih =>
    intro h st
    have hd : speedLimit < d.speed := h d (by simp)
    have ht : ∀ x ∈ rest, speedLimit < x.speed := fun x hx => h x (by simp [hx])
    obtain ⟨hc, hT⟩ := ih ht (updateVehicleState speedLimit st d)
    simp only [List.foldl_cons, List.length_cons]
    refine ⟨?_, ?_⟩
    · rw [hc, updateVehicleState_consecutive_viol _ _ _ hd]
      omega
    · rw [hT, updateVehicleState_total, if_pos hd]
      omega

/-- C4: starting from a fresh vehicle, a run of N violating readings leaves the
consecutive counter and the lifetime counter both at N; one further reading at
or below the limit resets the consecutive counter to 0 while the lifetime
counter stays at N; and in general the lifetime counter advances exactly on
violating updates and is never reset. -/
theorem claim_C4_consecutive_counting
    (speedLimit : ℚ) (ds : List SpeedData) (dok : SpeedData) (st : VehicleState)
    (hviol : ∀ d ∈ ds, speedLimit < d.speed)
    (hok : dok.speed ≤ speedLimit)
    (hrun : runUpdates speedLimit ds = some st) :
    st.consecutiveViolations = ds.length ∧
    st.totalViolations = ds.length ∧
    (updateVehicleState speedLimit st dok).consecutiveViolations = 0 ∧
    (updateVehicleState speedLimit st dok).totalViolations = ds.length ∧
    (∀ (st' : VehicleState) (d' : SpeedData),
      (updateVehicleState speedLimit st' d').totalViolations =
        st'.totalViolations + (if speedLimit < d'.speed then 1 else 0)) := by
  cases ds with
  | nil => exact absurd hrun (by simp [runUpdates])
  | cons d rest =>
    have hd : speedLimit < d.speed := hviol d (by simp)
    have ht : ∀ x ∈ rest, speedLimit < x.speed := fun x hx => hviol x (by simp [hx])
    unfold runUpdates at hrun
    rw [List.foldl_cons, foldl_update_some] at hrun
    obtain rfl := Option.some.inj hrun
    obtain ⟨hc, hT⟩ := foldl_update_violations speedLimit rest ht
      (applyReading speedLimit none d)
    have hbase_c : (applyReading speedLimit none d).consecutiveViolations = 1 := by
      show (updateVehicleState speedLimit (freshVehicleState d.vehicleId)
          d).consecutiveViolations = 1
      rw [updateVehicleState_consecutive_viol _ _ _ hd]
      rfl
    have hbase_t : (applyReading speedLimit none d).totalViolations = 1 := by
      show (updateVehicleState speedLimit (freshVehicleState d.vehicleId)
          d).totalViolations = 1
      rw [updateVehicleState_total, if_pos hd]
      rfl
    have hstc : (List.foldl (fun s d => updateVehicleState speedLimit s d)
        (applyReading speedLimit none d) rest).consecutiveViolations = rest.length + 1 := by
      rw [hc, hbase_c]; omega
    have hstt : (List.foldl (fun s d => updateVehicleState speedLimit s d)
        (applyReading speedLimit none d) rest).totalViolations = rest.length + 1 := by
      rw [hT, hbase_t]; omega
    refine ⟨by simpa using hstc, by simpa using hstt, ?_, ?_, ?_⟩
    · exact updateVehicleState_consecutive_ok _ _ _ hok
    · rw [updateVehicleState_total, if_neg (not_lt.mpr hok), hstt]
      simp
    · intro st' d'
      exact updateVehicleState_total speedLimit st' d'

/-- C4 witness: two violating readings (70 and 80 against limit 60) followed by
a compliant one at 50. -/
theorem claim_C4_consecutive_counting_witness :
    (∀ d ∈ [mkReading 70, mkReading 80], (60 : ℚ) < d.speed) ∧
    (mkReading 50).speed ≤ (60 : ℚ) ∧
    runUpdates 60 [mkReading 70, mkReading 80] =
      some (updateVehicleState 60 (updateVehicleState 60
        (freshVehicleState "ABC123") (mkReading 70)) (mkReading 80)) ∧
    ((updateVehicleState 60 (updateVehicleState 60
        (freshVehicleState "ABC123") (mkReading 70)) (mkReading 80)).consecutiveViolations
      = 2 ∧
     (updateVehicleState 60 (updateVehicleState 60
        (freshVehicleState "ABC123") (mkReading 70)) (mkReading 80)).totalViolations = 2 ∧
     (updateVehicleState 60 (updateVehicleState 60 (updateVehicleState 60
        (freshVehicleState "ABC123") (mkReading 70)) (mkReading 80))
        (mkReading 50)).consecutiveViolations = 0 ∧
     (updateVehicleState 60 (updateVehicleState 60 (updateVehicleState 60
        (freshVehicleState "ABC123") (mkReading 70)) (mkReading 80))
        (mkReading 50)).totalViolations = 2) := by
  have hviol : ∀ d ∈ [mkReading 70, mkReading 80], (60 : ℚ) < d.speed := by
    intro d hd
    simp only [List.mem_cons, List.not_mem_nil, or_false] at hd
    rcases hd with rfl | rfl <;> norm_num [mkReading]
  have hok : (mkReading 50).speed ≤ (60 : ℚ) := by norm_num [mkReading]
  have hrun : runUpdates 60 [mkReading 70, mkReading 80] =
      some (updateVehicleState 60 (updateVehicleState 60
        (freshVehicleState "ABC123") (mkReading 70)) (mkReading 80)) := rfl
  have main := claim_C4_consecutive_counting 60 [mkReading 70, mkReading 80]
    (mkReading 50) _ hviol hok hrun
  exact ⟨hviol, hok, hrun, by simpa using main.1, by simpa using main.2.1,
    by simpa using main.2.2.1, by simpa using main.2.2.2.1⟩

/-- Record-count step, independent of the violation branch. -/
lemma updateVehicleState_recordCount (speedLimit : ℚ) (st : VehicleState) (d : SpeedData) :
    (updateVehicleState speedLimit st d).recordCount = st.recordCount + 1 := by
  unfold updateVehicleState
  split_ifs <;> rfl

/-- Incremental-mean step, independent of the violation branch. -/
lemma updateVehicleState_averageSpeed (speedLimit : ℚ) (st : VehicleState) (d : SpeedData) :
    (updateVehicleState speedLimit st d).averageSpeed =
      (st.averageSpeed * (((st.recordCount + 1 : ℕ) : ℚ) - 1) + d.speed) /
        ((st.recordCount + 1 : ℕ) : ℚ) := by
  unfold updateVehicleState
  split_ifs <;> rfl

/-- History step, independent of the violation branch: push, then shift once
the length exceeds 10. -/
lemma updateVehicleState_speedHistory (speedLimit : ℚ) (st : VehicleState) (d : SpeedData) :
    (updateVehicleState speedLimit st d).speedHistory =
      (if (st.speedHistory ++ [(d.speed, d.timestamp)]).length > 10
       then (st.speedHistory ++ [(d.speed, d.timestamp)]).tail
       else st.speedHistory ++ [(d.speed, d.timestamp)]) := by
  simp only [updateVehicleState]
  split_ifs <;> rfl

/-- Push-then-shift on a last-10 suffix yields the last-10 suffix of the
extended list. -/
lemma history_step (pairs : List (ℚ × Nat)) (p : ℚ × Nat) :
    (if ((pairs.drop (pairs.length - 10)) ++ [p]).length > 10
     then ((pairs.drop (pairs.length - 10)) ++ [p]).tail
     else (pairs.drop (pairs.length - 10)) ++ [p]) =
      (pairs ++ [p]).drop (pairs.length + 1 - 10) := by
  have hkey : ∀ k, k ≤ pairs.length → (pairs ++ [p]).drop k = pairs.drop k ++ [p] := by
    intro k hk
    rw [List.drop_append_eq_append_drop]
    have : k - pairs.length = 0 := by omega
    rw [this]
    rfl
  by_cases hlen : pairs.length < 10
  · have h1 : pairs.length - 10 = 0 := by omega
    have h2 : pairs.length + 1 - 10 = 0 := by omega
    rw [if_neg]
    · rw [h1, h2]
      simp
    · rw [h1]
      simp
      omega
  · push_neg at hlen
    have hdroplen : (pairs.drop (pairs.length - 10)).length = 10 := by
      rw [List.length_drop]
      omega
    rw [if_pos]
    · rw [← hkey (pairs.length - 10) (by omega), ← List.drop_one, List.drop_drop]
      congr 1
      omega
    · rw [List.length_append, hdroplen]
      simp

/-- Invariant tying a vehicle state to the chronological list of readings
already processed for it: exact sample count, exact incremental mean, and the
history being the last-10 suffix of the chronological speed/timestamp pairs. -/
def MeanHistInv (processed : List SpeedData) (st : VehicleState) : Prop :=
  st.recordCount = processed.length ∧
  st.averageSpeed * (processed.length : ℚ) = (processed.map (fun d => d.speed)).sum ∧
  st.speedHistory = (processed.map (fun d => (d.speed, d.timestamp))).drop
    (processed.length - 10)

/-- One update preserves the mean/history invariant. -/
lemma meanHistInv_step (speedLimit : ℚ) (processed : List SpeedData)
    (st : VehicleState) (d : SpeedData) (h : MeanHistInv processed st) :
    MeanHistInv (processed ++ [d]) (updateVehicleState speedLimit st d) := by
  obtain ⟨hrc, havg, hhist⟩ := h
  have hne : ((processed.length + 1 : ℕ) : ℚ) ≠ 0 :=
    Nat.cast_ne_zero.mpr (Nat.succ_ne_zero processed.length)
  refine ⟨?_, ?_, ?_⟩
  · rw [updateVehicleState_recordCount, hrc]
    simp
  · rw [updateVehicleState_averageSpeed, hrc]
    have hlen : (((processed ++ [d]).length : ℕ) : ℚ) = ((processed.length + 1 : ℕ) : ℚ) := by
      simp
    rw [hlen, div_mul_cancel₀ _ hne, List.map_append, List.sum_append]
    push_cast
    simp only [List.map_cons, List.map_nil, List.sum_cons, List.sum_nil]
    linear_combination havg
  · rw [updateVehicleState_speedHistory, hhist]
    have hplen : (processed.map (fun d => (d.speed, d.timestamp))).length =
        processed.length := by simp
    rw [show (processed ++ [d]).length = processed.length + 1 by simp, List.map_append]
    simp only [List.map_cons, List.map_nil]
    rw [← hplen]
    exact history_step _ _

/-- The fold over any suffix preserves the mean/history invariant. -/
lemma meanHistInv_foldl (speedLimit : ℚ) (ds : List SpeedData) :
    ∀ (processed : List SpeedData) (st : VehicleState), MeanHistInv processed st →
      MeanHistInv (processed ++ ds)
        (ds.foldl (fun s d => updateVehicleState speedLimit s d) st) := by
  induction ds with
  | nil =>
    intro processed st h
    simpa using h
  | cons d rest ih =>
    intro processed st h
    have h1 := meanHistInv_step speedLimit processed st d h
    have h2 := ih (processed ++ [d]) _ h1
    simpa [List.append_assoc] using h2

/-- C9: after any nonempty run of updates for one vehicle starting from a
fresh state, the sample count equals the number of updates, the incrementally
maintained running average equals the exact arithmetic mean of all submitted
speeds, and the recent-speed history is exactly the last-10 suffix of the
chronological speed/timestamp pairs (so it never exceeds 10 entries and the
oldest entries are the ones dropped). -/
theorem claim_C9_mean_and_history
    (speedLimit : ℚ) (ds : List SpeedData) (st : VehicleState)
    (hrun : runUpdates speedLimit ds = some st) :
    st.recordCount = ds.length ∧
    st.averageSpeed = (ds.map (fun d => d.speed)).sum / (ds.length : ℚ) ∧
    st.speedHistory = (ds.map (fun d => (d.speed, d.timestamp))).drop (ds.length - 10) ∧
    st.speedHistory.length ≤ 10 := by
  cases ds with
  | nil => exact absurd hrun (by simp [runUpdates])
  | cons d rest =>
    unfold runUpdates at hrun
    rw [List.foldl_cons, foldl_update_some] at hrun
    obtain rfl := Option.some.inj hrun
    have hbase : MeanHistInv [d] (applyReading speedLimit none d) := by
      have h0 : MeanHistInv [] (freshVehicleState d.vehicleId) := by
        refine ⟨rfl, by simp [freshVehicleState], by simp [freshVehicleState]⟩
      simpa using meanHistInv_step speedLimit [] (freshVehicleState d.vehicleId) d h0
    have hinv := meanHistInv_foldl speedLimit rest [d] _ hbase
    obtain ⟨hrc, havg, hhist⟩ := hinv
    have hlenne : (((d :: rest).length : ℕ) : ℚ) ≠ 0 := by
      simp
      positivity
    refine ⟨by simpa using hrc, ?_, by simpa using hhist, ?_⟩
    · have havg' := havg
      simp only [List.singleton_append] at havg'
      rw [eq_div_iff hlenne]
      exact havg'
    · have hh : (List.foldl (fun s d => updateVehicleState speedLimit s d)
          (applyReading speedLimit none d) rest).speedHistory =
          ((d :: rest).map (fun d => (d.speed, d.timestamp))).drop
            ((d :: rest).length - 10) := by
        simpa using hhist
      rw [hh, List.length_drop, List.length_map]
      omega

/-- C9 witness: three readings at speeds 65, 67.5 and 70 make the mean 67.5,
the count 3 and the history all three pairs. -/
theorem claim_C9_mean_and_history_witness :
    runUpdates 60 [mkReading 65, mkReading (135/2), mkReading 70] =
      some (updateVehicleState 60 (updateVehicleState 60 (updateVehicleState 60
        (freshVehicleState "ABC123") (mkReading 65)) (mkReading (135/2))) (mkReading 70)) ∧
    ((updateVehicleState 60 (updateVehicleState 60 (updateVehicleState 60
        (freshVehicleState "ABC123") (mkReading 65)) (mkReading (135/2)))
        (mkReading 70)).recordCount = 3 ∧
     (updateVehicleState 60 (updateVehicleState 60 (updateVehicleState 60
        (freshVehicleState "ABC123") (mkReading 65)) (mkReading (135/2)))
        (mkReading 70)).averageSpeed =
        ([mkReading 65, mkReading (135/2), mkReading 70].map (fun d => d.speed)).sum / 3 ∧
     (updateVehicleState 60 (updateVehicleState 60 (updateVehicleState 60
        (freshVehicleState "ABC123") (mkReading 65)) (mkReading (135/2)))
        (mkReading 70)).speedHistory.length ≤ 10) := by
  have hrun : runUpdates 60 [mkReading 65, mkReading (135/2), mkReading 70] =
      some (updateVehicleState 60 (updateVehicleState 60 (updateVehicleState 60
        (freshVehicleState "ABC123") (mkReading 65)) (mkReading (135/2)))
        (mkReading 70)) := rfl
  have main := claim_C9_mean_and_history 60
    [mkReading 65, mkReading (135/2), mkReading 70] _ hrun
  exact ⟨hrun, by simpa using main.1, by simpa using main.2.1,
    main.2.2.2⟩

/-- A violation with no active-alert entry for its vehicle is not suppressed. -/
lemma shouldSuppressAlert_none (now : Nat) (s : AlertSystemState) (v : Violation)
    (h : s.activeAlerts v.vehicleId = none) :
    shouldSuppressAlert now s v = false := by
  unfold shouldSuppressAlert
  rw [h]

/-- An unsuppressed processViolation call creates and stores the alert built
from the selected strategy. -/
lemma processViolation_not_suppressed (now : Nat) (s : AlertSystemState) (v : Violation)
    (h : shouldSuppressAlert now s v = false) :
    processViolation now s v =
      (.created (createAlert now v (strategyDataFor (determineStrategy v))),
        storeAlert now s (createAlert now v (strategyDataFor (determineStrategy v)))) := by
  unfold processViolation
  rw [h]
  rfl

/-- A suppressed processViolation call returns early and changes nothing. -/
lemma processViolation_suppressed (now : Nat) (s : AlertSystemState) (v : Violation)
    (h : shouldSuppressAlert now s v = true) :
    processViolation now s v = (.suppressed, s) := by
  unfold processViolation
  rw [h]
  rfl

/-- storeAlert overwrites the stored vehicle's active-alert entry with the
store time. -/
lemma storeAlert_activeAlerts_self (now : Nat) (s : AlertSystemState) (alert : Alert) :
    (storeAlert now s alert).activeAlerts alert.vehicleId =
      some { lastAlert := now, severity := alert.severity } := by
  unfold storeAlert
  simp

/-- C3: starting with no active-alert entry for a vehicle, the first violation
creates an Alert; a second violation for the same vehicle within the
suppression window is suppressed — whatever its severity — and leaves the
whole AlertSystem state (so in particular the existing active-alert entry)
unchanged; a second violation arriving more than the window after the first
creates a second Alert. -/
theorem claim_C3_suppression_window
    (s : AlertSystemState) (vid : String) (v1 v2 : Violation) (t1 t2 t3 : Nat)
    (hv1 : v1.vehicleId = vid) (hv2 : v2.vehicleId = vid)
    (hnone : s.activeAlerts vid = none)
    (hwithin : t2 - t1 < suppressionWindow)
    (hbeyond : suppressionWindow < t3 - t1) :
    (∃ a1, (processViolation t1 s v1).1 = .created a1) ∧
    ((processViolation t2 (processViolation t1 s v1).2 v2).1 = .suppressed ∧
      (processViolation t2 (processViolation t1 s v1).2 v2).2 =
        (processViolation t1 s v1).2) ∧
    (∃ a2, (processViolation t3 (processViolation t1 s v1).2 v2).1 = .created a2) := by
  have h1 : shouldSuppressAlert t1 s v1 = false :=
    shouldSuppressAlert_none t1 s v1 (by rw [hv1]; exact hnone)
  have e1 := processViolation_not_suppressed t1 s v1 h1
  have hactive : (processViolation t1 s v1).2.activeAlerts vid =
      some { lastAlert := t1
             severity := (createAlert t1 v1 (strategyDataFor (determineStrategy v1))).severity } := by
    rw [e1]
    have hvid : (createAlert t1 v1 (strategyDataFor (determineStrategy v1))).vehicleId = vid := by
      rw [← hv1]
      rfl
    rw [← hvid]
    exact storeAlert_activeAlerts_self t1 s _
  have h2 : shouldSuppressAlert t2 (processViolation t1 s v1).2 v2 = true := by
    unfold shouldSuppressAlert
    rw [hv2, hactive]
    simpa using hwithin
  have h3 : shouldSuppressAlert t3 (processViolation t1 s v1).2 v2 = false := by
    unfold shouldSuppressAlert
    rw [hv2, hactive]
    simp only [decide_eq_false_iff_not, not_lt]
    omega
  refine ⟨⟨createAlert t1 v1 (strategyDataFor (determineStrategy v1)), ?_⟩, ?_,
    ⟨createAlert t3 v2 (strategyDataFor (determineStrategy v2)), ?_⟩⟩
  · rw [e1]
  · rw [processViolation_suppressed t2 _ v2 h2]
    exact ⟨rfl, rfl⟩
  · rw [processViolation_not_suppressed t3 _ v2 h3]

/-- A concrete LOW-severity violation for witnesses. -/
def mkViolationLow : Violation :=
  { vehicleId := "ABC123", speed := 65, speedLimit := 60, exceedAmount := 5
    exceedPercentage := 833/100, severity := "LOW", isConsecutive := false
    consecutiveCount := 1, timestamp := 0, location := none, vehicleType := "unknown" }

/-- A concrete CRITICAL-severity violation for witnesses. -/
def mkViolationCritical : Violation :=
  { vehicleId := "ABC123", speed := 95, speedLimit := 60, exceedAmount := 35
    exceedPercentage := 5833/100, severity := "CRITICAL", isConsecutive := false
    consecutiveCount := 1, timestamp := 10000, location := none, vehicleType := "unknown" }

/-- An empty AlertSystem state, as built by the AlertSystem constructor. -/
def emptyAlertSystemState : AlertSystemState :=
  { alertHistory := [], activeAlerts := fun _ => none }

/-- C3 witness: a LOW alert at time 0 suppresses a CRITICAL violation arriving
at 10000 ms (inside the 30000 ms window), while the same CRITICAL violation at
40000 ms produces a second alert. -/
theorem claim_C3_suppression_window_witness :
    (mkViolationLow.vehicleId = "ABC123" ∧ mkViolationCritical.vehicleId = "ABC123" ∧
      emptyAlertSystemState.activeAlerts "ABC123" = none ∧
      10000 - 0 < suppressionWindow ∧ suppressionWindow < 40000 - 0) ∧
    ((∃ a1, (processViolation 0 emptyAlertSystemState mkViolationLow).1 = .created a1) ∧
     ((processViolation 10000 (processViolation 0 emptyAlertSystemState mkViolationLow).2
        mkViolationCritical).1 = .suppressed ∧
      (processViolation 10000 (processViolation 0 emptyAlertSystemState mkViolationLow).2
        mkViolationCritical).2 =
        (processViolation 0 emptyAlertSystemState mkViolationLow).2) ∧
     (∃ a2, (processViolation 40000 (processViolation 0 emptyAlertSystemState mkViolationLow).2
        mkViolationCritical).1 = .created a2)) :=
  ⟨⟨rfl, rfl, rfl, by norm_num [suppressionWindow], by norm_num [suppressionWindow]⟩,
    claim_C3_suppression_window emptyAlertSystemState "ABC123"
      mkViolationLow mkViolationCritical 0 10000 40000 rfl rfl rfl
      (by norm_num [suppressionWindow]) (by norm_num [suppressionWindow])⟩

/-- Unfolding of the history part of storeAlert. -/
lemma storeAlert_alertHistory (now : Nat) (s : AlertSystemState) (alert : Alert) :
    (storeAlert now s alert).alertHistory =
      if (alert :: s.alertHistory).length > maxHistorySize
      then (alert :: s.alertHistory).dropLast
      else alert :: s.alertHistory := rfl

/-- C10: processViolation keeps the in-memory alert history at no more than
1000 entries; when an alert is created it is prepended, and once the history
already sits at the 1000-entry capacity the oldest (last) entry is evicted. -/
theorem claim_C10_history_bound
    (now : Nat) (s : AlertSystemState) (v : Violation)
    (hbound : s.alertHistory.length ≤ 1000) :
    (processViolation now s v).2.alertHistory.length ≤ 1000 ∧
    (∀ a, (processViolation now s v).1 = .created a →
      (s.alertHistory.length = 1000 →
        (processViolation now s v).2.alertHistory = a :: s.alertHistory.dropLast) ∧
      (s.alertHistory.length < 1000 →
        (processViolation now s v).2.alertHistory = a :: s.alertHistory)) := by
  by_cases hs : shouldSuppressAlert now s v = true
  · rw [processViolation_suppressed now s v hs]
    refine ⟨hbound, ?_⟩
    intro a ha
    exact absurd ha (by simp)
  · rw [processViolation_not_suppressed now s v (by simpa using hs)]
    constructor
    · rw [storeAlert_alertHistory]
      split_ifs with hlen
      · simp only [List.length_dropLast, List.length_cons, maxHistorySize] at hlen ⊢
        omega
      · simp only [List.length_cons, maxHistorySize] at hlen ⊢
        omega
    · intro a ha
      have ha' : a = createAlert now v (strategyDataFor (determineStrategy v)) := by
        cases ha
        rfl
      subst ha'
      constructor
      · intro hfull
        rw [storeAlert_alertHistory,
          if_pos (by simp [List.length_cons, hfull, maxHistorySize])]
        rw [List.dropLast_cons_of_ne_nil]
        intro hnil
        rw [hnil] at hfull
        simp at hfull
      · intro hlt
        rw [storeAlert_alertHistory,
          if_neg (by simp only [List.length_cons, maxHistorySize, gt_iff_lt, not_lt]; omega)]

/-- C10 witness: the bound holds when processing a violation from the empty
history, where the created alert is simply prepended. -/
theorem claim_C10_history_bound_witness :
    emptyAlertSystemState.alertHistory.length ≤ 1000 ∧
    ((processViolation 0 emptyAlertSystemState mkViolationLow).2.alertHistory.length ≤ 1000 ∧
     (∀ a, (processViolation 0 emptyAlertSystemState mkViolationLow).1 = .created a →
       (emptyAlertSystemState.alertHistory.length = 1000 →
         (processViolation 0 emptyAlertSystemState mkViolationLow).2.alertHistory =
           a :: emptyAlertSystemState.alertHistory.dropLast) ∧
       (emptyAlertSystemState.alertHistory.length < 1000 →
         (processViolation 0 emptyAlertSystemState mkViolationLow).2.alertHistory =
           a :: emptyAlertSystemState.alertHistory))) :=
  ⟨by simp [emptyAlertSystemState],
    claim_C10_history_bound 0 emptyAlertSystemState mkViolationLow
      (by simp [emptyAlertSystemState])⟩

/-- The behavior of processSpeedData when the persistence write throws: the
error is caught (returned as a failure result), every state mutation made
before the save is kept, and the alert system is never reached. -/
lemma processSpeedData_saveThrows (cfg : ProcConfig) (now : Nat)
    (ps : ProcState) (alertSys : AlertSystemState) (d : SpeedData)
    (hvalid : validateSpeedData d = true) (hds : cfg.hasDataStore = true) :
    processSpeedData cfg true now ps alertSys d =
      { outcome := .caughtError
        proc :=
          { vehicleStates := setVehicleState ps.vehicleStates d.vehicleId
              (updateVehicleState cfg.speedLimit
                ((ps.vehicleStates d.vehicleId).getD (freshVehicleState d.vehicleId)) d)
            processedCount := ps.processedCount + 1
            violationCount := ps.violationCount +
              (if (checkSpeedViolation cfg.speedLimit cfg.consecutiveLimit d
                  (updateVehicleState cfg.speedLimit
                    ((ps.vehicleStates d.vehicleId).getD
                      (freshVehicleState d.vehicleId)) d)).isSome
               then 1 else 0) }
        alertSys := alertSys
        saveInvoked := true
        alertInvoked := false } := by
  unfold processSpeedData
  rw [hvalid, hds]
  rfl

/-- C2 counterexample: a valid violating reading (speed 80 against limit 60)
processed with a throwing dataStore: the classifier did produce a violation,
yet the alert system is not invoked and its state is untouched — a persistence
failure does prevent alert evaluation/publication, refuting the claimed
independence. -/
theorem claim_C2_counterexample :
    (checkSpeedViolation 60 3 (mkReading 80)
        (applyReading 60 none (mkReading 80))).isSome = true ∧
    (processSpeedData (ProcConfig.mk 60 3 true true) true 0
        (ProcState.mk (fun _ => none) 0 0) emptyAlertSystemState
        (mkReading 80)).alertInvoked = false ∧
    (processSpeedData (ProcConfig.mk 60 3 true true) true 0
        (ProcState.mk (fun _ => none) 0 0) emptyAlertSystemState
        (mkReading 80)).alertSys.alertHistory = [] := by
  refine ⟨?_, ?_, ?_⟩
  · rw [show applyReading 60 none (mkReading 80) =
        updateVehicleState 60 (freshVehicleState "ABC123") (mkReading 80) from rfl,
      checkSpeedViolation_eq_some 60 3 (mkReading 80) _ (by norm_num [mkReading])]
    rfl
  · rw [processSpeedData_saveThrows _ 0 _ _ _ (by decide) rfl]
  · rw [processSpeedData_saveThrows _ 0 _ _ _ (by decide) rfl]
    rfl

/-- C2 (amended): for every valid reading, a throwing saveSpeedRecord is
caught inside processSpeedData — the call returns an error result instead of
crashing the ingestion loop, and the in-memory vehicle state already computed
for the reading stays in the map — but, both steps living in the same
try/catch, alert evaluation/publication for that reading is skipped and the
alert system state is left exactly as it was: persistence and publication
failures are not caught independently of each other. -/
theorem claim_C2_persistence_failure
    (cfg : ProcConfig) (now : Nat) (ps : ProcState)
    (alertSys : AlertSystemState) (d : SpeedData)
    (hvalid : validateSpeedData d = true) (hds : cfg.hasDataStore = true) :
    (processSpeedData cfg true now ps alertSys d).outcome = .caughtError ∧
    (processSpeedData cfg true now ps alertSys d).saveInvoked = true ∧
    (processSpeedData cfg true now ps alertSys d).alertInvoked = false ∧
    (processSpeedData cfg true now ps alertSys d).alertSys = alertSys ∧
    (processSpeedData cfg true now ps alertSys d).proc.vehicleStates d.vehicleId =
      some (updateVehicleState cfg.speedLimit
        ((ps.vehicleStates d.vehicleId).getD (freshVehicleState d.vehicleId)) d) ∧
    (∀ k, k ≠ d.vehicleId →
      (processSpeedData cfg true now ps alertSys d).proc.vehicleStates k =
        ps.vehicleStates k) := by
  rw [processSpeedData_saveThrows cfg now ps alertSys d hvalid hds]
  refine ⟨rfl, rfl, rfl, rfl, ?_, ?_⟩
  · unfold setVehicleState
    simp
  · intro k hk
    unfold setVehicleState
    simp [hk]

/-- C2 witness: the amended theorem applied to the violating reading of the
counterexample. -/
theorem claim_C2_persistence_failure_witness :
    validateSpeedData (mkReading 80) = true ∧
    (ProcConfig.mk 60 3 true true).hasDataStore = true ∧
    ((processSpeedData (ProcConfig.mk 60 3 true true) true 0
        (ProcState.mk (fun _ => none) 0 0) emptyAlertSystemState
        (mkReading 80)).outcome = .caughtError ∧
     (processSpeedData (ProcConfig.mk 60 3 true true) true 0
        (ProcState.mk (fun _ => none) 0 0) emptyAlertSystemState
        (mkReading 80)).saveInvoked = true ∧
     (processSpeedData (ProcConfig.mk 60 3 true true) true 0
        (ProcState.mk (fun _ => none) 0 0) emptyAlertSystemState
        (mkReading 80)).alertInvoked = false ∧
     (processSpeedData (ProcConfig.mk 60 3 true true) true 0
        (ProcState.mk (fun _ => none) 0 0) emptyAlertSystemState
        (mkReading 80)).alertSys = emptyAlertSystemState) :=
  ⟨by decide, rfl,
    (fun h => ⟨h.1, h.2.1, h.2.2.1, h.2.2.2.1⟩)
      (claim_C2_persistence_failure (ProcConfig.mk 60 3 true true) 0
        (ProcState.mk (fun _ => none) 0 0) emptyAlertSystemState
        (mkReading 80) (by decide) rfl)⟩

/-- C8: the four malformed payload shapes — the empty string, the truncated
JSON object, a pre-parsed object missing the speed field, and one whose speed
is not numeric — all make parseSpeedMessage return the invalid result, and
handleSpeedMessage on each of them only counts the message and the error:
no Reading is produced, no alert is published, and the SpeedProcessor and
AlertSystem states are untouched, so the stream keeps running. -/
theorem claim_C8_malformed_payloads (cfg : ProcConfig) (saveThrows : Bool)
    (now : Nat) (s : SystemState) :
    (parseSpeedMessage (.str "") = none ∧
      handleSpeedMessage cfg saveThrows now s (.str "") =
        { state := { s with messageCount := s.messageCount + 1
                            errorCount := s.errorCount + 1 }
          published := [], processed := none }) ∧
    (parseSpeedMessage (.str "\x7b\"invalid\": \"json\"") = none ∧
      handleSpeedMessage cfg saveThrows now s (.str "\x7b\"invalid\": \"json\"") =
        { state := { s with messageCount := s.messageCount + 1
                            errorCount := s.errorCount + 1 }
          published := [], processed := none }) ∧
    (parseSpeedMessage (.json (.obj [("vehicleId", .str "ABC123")])) = none ∧
      handleSpeedMessage cfg saveThrows now s (.json (.obj [("vehicleId", .str "ABC123")])) =
        { state := { s with messageCount := s.messageCount + 1
                            errorCount := s.errorCount + 1 }
          published := [], processed := none }) ∧
    (parseSpeedMessage
        (.json (.obj [("vehicleId", .str "ABC123"), ("speed", .str "fast")])) = none ∧
      handleSpeedMessage cfg saveThrows now s
          (.json (.obj [("vehicleId", .str "ABC123"), ("speed", .str "fast")])) =
        { state := { s with messageCount := s.messageCount + 1
                            errorCount := s.errorCount + 1 }
          published := [], processed := none }) := by
  refine ⟨⟨?_, ?_⟩, ⟨?_, ?_⟩, ⟨?_, ?_⟩, ⟨?_, ?_⟩⟩ <;> rfl

end Claims

end GausControl
